import Mathlib

/-!
Shallow embedding of the `oauth2l` command-line credential utility
(`oauth2l/__init__.py`) and proofs about its credential-acquisition,
token-introspection, scope-expansion and output-formatting logic.

External collaborators (HTTP transport, the apitools credential store,
the filesystem, the Python `json` module) are modelled as fields of an
environment record `Env`; side effects relevant to the specification
(network calls, credential-store calls, refresh calls, file opens) are
recorded in an explicit event trace.  Python exceptions are modelled by
the inductive type `Err`; fallible code returns `Except Err _`.
-/

/-- A JSON value, as produced by the Python `json` module for config files.
Only the shapes the source inspects are distinguished: strings, objects,
and everything else. -/
inductive JVal where
  | str : String → JVal
  | obj : List (String × JVal) → JVal
  | other : JVal

/-- A parsed JSON object (Python dict): association list of key/value pairs.
`json.load` on the config files the source reads yields a top-level dict. -/
abbrev JObj := List (String × JVal)

/-- The result of introspecting a token: the dict parsed from the tokeninfo
response body (`json.loads(response.content)`).  Empty dict = invalid token. -/
abbrev TokenInfo := List (String × JVal)

/-- Python truthiness of a dict: `bool(d)` is true iff the dict is non-empty.
Used for `if not tokeninfo:` and `bool(_GetTokenInfo(...))`. -/
def pybool (d : TokenInfo) : Bool := !d.isEmpty

/-- Python exception messages raised by the source, kept structured so the
exact text is recoverable via `PyMsg.render` while constructor disequality
stays syntactic. -/
inductive PyMsg where
  /-- `ValueError('No scopes provided')` in `_FetchCredentials`. -/
  | noScopes : PyMsg
  /-- `ValueError('Invalid JSON file: {}')` in `_ProcessJsonArgs`. -/
  | invalidJsonFile : String → PyMsg
  /-- `ValueError('Cannot find file: {0}')` in `GetClientInfoFromFlags`. -/
  | cannotFindFile : String → PyMsg
  /-- `ValueError('Provided client ID must be for an installed app')`. -/
  | notInstalledApp : PyMsg
  /-- the `ValueError` the `json` module raises on a malformed document
  (uncaught in `GetClientInfoFromFlags`). -/
  | jsonDecodeError : PyMsg
  /-- `ValueError('Unknown format: {0}')` in `_Format`. -/
  | unknownFormat : String → PyMsg
  /-- any other message (errors produced inside external collaborators). -/
  | custom : String → PyMsg
deriving Repr, DecidableEq

/-- The text of each exception message, exactly as the source formats it. -/
def PyMsg.render : PyMsg → String
  | .noScopes => "No scopes provided"
  | .invalidJsonFile p => "Invalid JSON file: " ++ p
  | .cannotFindFile p => "Cannot find file: " ++ p
  | .notInstalledApp => "Provided client ID must be for an installed app"
  | .jsonDecodeError => "Expecting value"
  | .unknownFormat f => "Unknown format: " ++ f
  | .custom s => s

/-- Python exceptions, by class: `ValueError`, `IOError`/`OSError` from
`open()`, `KeyError`/`TypeError` from dict indexing, the `apitools`
`HttpError` raised by `HttpError.FromResponse`, and opaque failures of the
external authorization collaborator. -/
inductive Err where
  | valueError : PyMsg → Err
  | ioError : String → Err
  | keyError : String → Err
  | typeError : Err
  | httpError : Nat → Err
  | authError : String → Err
deriving Repr, DecidableEq

/-- The error taxonomy of the specification, applied to the exception
classes of the source: a `ConfigurationError` is any error arising from
local configuration processing — a malformed or missing JSON key file
(`ValueError`, `IOError`, `KeyError`/`TypeError` from the key file's dict),
an empty scope list (`ValueError`), or an unrecognized format
(`ValueError`).  Transport and authorization failures are not
configuration errors. -/
def Err.isConfigurationError : Err → Bool
  | .valueError _ => true
  | .ioError _ => true
  | .keyError _ => true
  | .typeError => true
  | .httpError _ => false
  | .authError _ => false

/-- The error taxonomy of the specification: a `TransportError` is the
HTTP-status error raised by introspection for a status other than 200/400. -/
def Err.isTransportError : Err → Bool
  | .httpError _ => true
  | _ => false

/-- A credential as returned by `apitools_base.GetCredentials`: the source
uses its `access_token` attribute and its `to_json()` method. -/
structure Credential where
  access_token : String
  to_json : String
deriving Repr, DecidableEq

/-- The client-info dict `{client_id, client_secret, user_agent}`.  The
id/secret are whatever JSON values the client-secrets file holds. -/
structure ClientInfo where
  client_id : JVal
  client_secret : JVal
  user_agent : String

/-- An HTTP response as seen by `_GetTokenInfo`: status code and body. -/
structure HttpResponse where
  status_code : Nat
  content : String
deriving Repr, DecidableEq

/-- The side effects the specification talks about, recorded as a trace:
introspection HTTP calls, calls into the external credential store
(`apitools_base.GetCredentials`), refresh calls (`credentials.refresh`),
and file opens. -/
inductive Event where
  | httpCall : String → Event
  | getCreds : List String → String → String → Event
  | refreshCall : String → Event
  | fileOpen : String → Event
deriving Repr, DecidableEq

/-- `true` for events that contact the network (directly, or via the
credential-store / refresh collaborator, whose flows are remote). -/
def Event.isNetwork : Event → Bool
  | .httpCall _ => true
  | .getCreds _ _ _ => true
  | .refreshCall _ => true
  | .fileOpen _ => false

/-- The external collaborators of the program.  Pure-function fields model
one deterministic run of each collaborator. -/
structure Env where
  /-- `apitools_base.MakeRequest(apitools_base.GetHttp(), Request(url))`. -/
  httpGet : String → HttpResponse
  /-- `json.loads` on collaborator-produced text (tokeninfo response
  bodies, `credentials.to_json()`); such bodies are well-formed JSON
  objects, so parsing is modelled as total. -/
  jsonLoads : String → TokenInfo
  /-- `json.load` on a user-supplied config file; `none` models the
  `ValueError` (`JSONDecodeError`) a malformed document raises.  The files
  the source reads are top-level JSON objects. -/
  parseJson : String → Option JObj
  /-- `open(path)` followed by reading; `none` models the `IOError` a
  missing/unreadable file raises. -/
  readFile : String → Option String
  /-- `os.path.exists`. -/
  pathExists : String → Bool
  /-- `os.path.expanduser`. -/
  expanduser : String → String
  /-- `GetDefaultClientInfo()`: client info parsed from the baked-in
  `apitools` package data, which is well-formed. -/
  defaultClientInfo : ClientInfo
  /-- `apitools_base.GetCredentials('oauth2l', scopes, credentials_filename,
  service_account_json_keyfile, ...)`: the external credential-store /
  authorization collaborator. -/
  getCredentials : List String → String → String → ClientInfo → Except Err Credential
  /-- `credentials.refresh(apitools_base.GetHttp())`: the external refresh
  operation; the returned credential is the post-mutation state. -/
  refresh : Credential → Except Err Credential
  /-- `json.dumps(data, sort_keys=True, indent=4, separators=(',', ': '))`
  (`_PrettyJson`). -/
  prettyJson : TokenInfo → String
  /-- `json.dumps(data, sort_keys=True, separators=(',', ':'))`
  (`_CompactJson`). -/
  compactJson : TokenInfo → String
  /-- `type(credentials).__module__ + '.' + type(credentials).__name__`,
  used by the `pretty` format. -/
  credTypeName : String

/-- The parsed command-line namespace: every attribute the handlers read. -/
structure Args where
  json : String
  scope : List String
  credentials_filename : String
  credentials_format : String
  format : String
  access_token : String

/-- Python `a or b` on strings (empty string is falsy). -/
def pyOrStr (a b : String) : String := if a = "" then b else a

/-- Python `a or b` where `a` is an optional keyword argument defaulting to
`None` and `b` a string; a present empty string is still falsy. -/
def pyOrOpt (a : Option String) (b : String) : String :=
  match a with
  | some s => pyOrStr s b
  | none => b

/-- Python `s.startswith(p)`. -/
def pyStartswith (s p : String) : Bool := p.data.isPrefixOf s.data

/-- `_OAUTH2_TOKENINFO_TEMPLATE.format(access_token=access_token)`: the
fixed introspection URL with the token as query parameter. -/
def tokeninfoUrl (access_token : String) : String :=
  "https://www.googleapis.com/oauth2/v2/tokeninfo?access_token=" ++ access_token

/-- The fixed base URI `scope_prefix = 'https://www.googleapis.com/auth/'`
of `_ExpandScopes`. -/
def scopePrefixUrl : String := "https://www.googleapis.com/auth/"

/-- `_ExpandScopes(scopes)`: qualify each scope token, passing through the
ones that already start with `https://`. -/
def _ExpandScopes (scopes : List String) : List String :=
  scopes.map (fun s => if pyStartswith s "https://" then s else scopePrefixUrl ++ s)

/-- `_AsText`: response bodies are text in this embedding (the bytes case
is a UTF-8 decode, a no-op once strings are abstract text). -/
def _AsText (text_or_bytes : String) : String := text_or_bytes

/-- `_FORMATS = set(('bare', 'header', 'json', 'json_compact', 'pretty'))`. -/
def _FORMATS : List String := ["bare", "header", "json", "json_compact", "pretty"]

/-- `_Format(fmt, credentials)`: render a credential in the given format,
raising `ValueError` for an unknown format. -/
def _Format (env : Env) (fmt : String) (credentials : Credential) : Except Err String :=
  if fmt = "bare" then
    .ok credentials.access_token
  else if fmt = "header" then
    .ok ("Authorization: Bearer " ++ credentials.access_token)
  else if fmt = "json" then
    .ok (env.prettyJson (env.jsonLoads (_AsText credentials.to_json)))
  else if fmt = "json_compact" then
    .ok (env.compactJson (env.jsonLoads (_AsText credentials.to_json)))
  else if fmt = "pretty" then
    .ok ("Fetched credentials of type:\n  " ++ env.credTypeName ++
         "\nAccess token:\n  " ++ credentials.access_token)
  else
    .error (.valueError (.unknownFormat fmt))

/-- `http_client.OK`. -/
def httpOK : Nat := 200

/-- `http_client.BAD_REQUEST`. -/
def httpBadRequest : Nat := 400

/-- `_GetTokenInfo(access_token)`: GET the tokeninfo endpoint; status 200
parses the body, status 400 yields the empty dict, anything else raises
`apitools_base.HttpError.FromResponse(response)`. -/
def _GetTokenInfo (env : Env) (access_token : String) :
    Except Err TokenInfo × List Event :=
  let url := tokeninfoUrl access_token
  let response := env.httpGet url
  let events := [Event.httpCall url]
  if ¬ (response.status_code ∈ [httpOK, httpBadRequest]) then
    (.error (.httpError response.status_code), events)
  else if response.status_code = httpBadRequest then
    (.ok [], events)
  else
    (.ok (env.jsonLoads (_AsText response.content)), events)

/-- `_TestToken(access_token)`: `bool(_GetTokenInfo(access_token))`. -/
def _TestToken (env : Env) (access_token : String) :
    Except Err Bool × List Event :=
  match _GetTokenInfo env access_token with
  | (.ok info, evs) => (.ok (pybool info), evs)
  | (.error e, evs) => (.error e, evs)

/-- Python `d[k]` on a parsed JSON value: `KeyError` when `k` is absent,
`TypeError` when the value is not a dict. -/
def jIndex (v : JVal) (k : String) : Except Err JVal :=
  match v with
  | .obj kvs =>
    match kvs.lookup k with
    | some w => .ok w
    | none => .error (.keyError k)
  | _ => .error .typeError

/-- `contents.get(k, '')` on a parsed JSON object. -/
def jGetDefault (d : JObj) (k : String) : JVal :=
  (d.lookup k).getD (.str "")

/-- Python `v == 'service_account'` for a JSON value: only equal when the
value is that string. -/
def jvalEqStr (v : JVal) (s : String) : Bool :=
  match v with
  | .str a => a == s
  | _ => false

/-- `GetDefaultClientInfo()`: client info from the baked-in package data. -/
def GetDefaultClientInfo (env : Env) : ClientInfo :=
  env.defaultClientInfo

/-- `GetClientInfoFromFlags(client_secrets)`: load client info from a
client-secrets file when a path is given, else use the default. -/
def GetClientInfoFromFlags (env : Env) (client_secrets : String) :
    Except Err ClientInfo × List Event :=
  if client_secrets ≠ "" then
    let client_secrets_path := env.expanduser client_secrets
    if ¬ env.pathExists client_secrets_path then
      (.error (.valueError (.cannotFindFile client_secrets)), [])
    else
      match env.readFile client_secrets_path with
      | none => (.error (.ioError client_secrets_path), [.fileOpen client_secrets_path])
      | some raw =>
        match env.parseJson raw with
        | none => (.error (.valueError .jsonDecodeError), [.fileOpen client_secrets_path])
        | some contents =>
          match contents.lookup "installed" with
          | none =>
            (.error (.valueError .notInstalledApp), [.fileOpen client_secrets_path])
          | some installed =>
            match jIndex installed "client_id" with
            | .error e => (.error e, [.fileOpen client_secrets_path])
            | .ok cid =>
              match jIndex installed "client_secret" with
              | .error e => (.error e, [.fileOpen client_secrets_path])
              | .ok csec =>
                (.ok ⟨cid, csec, "apitools/0.2 oauth2l/0.1"⟩,
                 [.fileOpen client_secrets_path])
  else
    (.ok (GetDefaultClientInfo env), [])

/-- `_ProcessJsonArgs(args)`: read `args.json` and decide, from its
contents, whether it is a service-account key or a client-secrets file. -/
def _ProcessJsonArgs (env : Env) (argsJson : String) :
    Except Err (String × String) × List Event :=
  if argsJson = "" then
    (.ok ("", ""), [])
  else
    match env.readFile argsJson with
    | none => (.error (.ioError argsJson), [.fileOpen argsJson])
    | some raw =>
      match env.parseJson raw with
      | none => (.error (.valueError (.invalidJsonFile argsJson)), [.fileOpen argsJson])
      | some contents =>
        if jvalEqStr (jGetDefault contents "type") "service_account" then
          (.ok ("", argsJson), [.fileOpen argsJson])
        else
          (.ok (argsJson, ""), [.fileOpen argsJson])

/-- `client_info or GetClientInfoFromFlags(client_secrets)` in
`_FetchCredentials` (a caller-provided client-info dict is non-empty,
hence truthy). -/
def resolveClientInfo (env : Env) (client_info : Option ClientInfo)
    (client_secrets : String) : Except Err ClientInfo × List Event :=
  match client_info with
  | some ci => (.ok ci, [])
  | none => GetClientInfoFromFlags env client_secrets

/-- `_FetchCredentials(args, client_info=None, credentials_filename=None)`:
process the JSON argument, resolve client info, expand scopes (rejecting an
empty list), obtain a credential from the external store, introspect its
access token, and refresh exactly when introspection reports it invalid. -/
def _FetchCredentials (env : Env) (args : Args)
    (client_info : Option ClientInfo) (credentials_filename : Option String) :
    Except Err Credential × List Event :=
  match _ProcessJsonArgs env args.json with
  | (.error e, evs1) => (.error e, evs1)
  | (.ok (client_secrets, service_account_json_keyfile), evs1) =>
    match resolveClientInfo env client_info client_secrets with
    | (.error e, evs2) => (.error e, evs1 ++ evs2)
    | (.ok ci, evs2) =>
      let scopes := _ExpandScopes args.scope
      if scopes = [] then
        (.error (.valueError .noScopes), evs1 ++ evs2)
      else
        let fname := pyOrOpt credentials_filename args.credentials_filename
        let evGet := Event.getCreds scopes fname service_account_json_keyfile
        match env.getCredentials scopes fname service_account_json_keyfile ci with
        | .error e => (.error e, evs1 ++ evs2 ++ [evGet])
        | .ok credentials =>
          match _TestToken env credentials.access_token with
          | (.error e, evs4) => (.error e, evs1 ++ evs2 ++ [evGet] ++ evs4)
          | (.ok valid, evs4) =>
            if valid then
              (.ok credentials, evs1 ++ evs2 ++ [evGet] ++ evs4)
            else
              match env.refresh credentials with
              | .error e =>
                (.error e,
                 evs1 ++ evs2 ++ [evGet] ++ evs4 ++
                   [Event.refreshCall credentials.access_token])
              | .ok refreshed =>
                (.ok refreshed,
                 evs1 ++ evs2 ++ [evGet] ++ evs4 ++
                   [Event.refreshCall credentials.access_token])

/-- The outcome of a command handler: Python return value (`None` or an
int), the lines printed to stdout, and the event trace. -/
structure HandlerResult where
  ret : Except Err (Option Nat)
  stdout : List String
  events : List Event
deriving Repr

/-- `_Fetch(args)`: fetch a credential and print it in the requested
format (`args.credentials_format.lower()`). -/
def _Fetch (env : Env) (args : Args) : HandlerResult :=
  match _FetchCredentials env args none none with
  | (.error e, evs) => ⟨.error e, [], evs⟩
  | (.ok credentials, evs) =>
    match _Format env args.credentials_format.toLower credentials with
    | .error e => ⟨.error e, [], evs⟩
    | .ok s => ⟨.ok none, [s], evs⟩

/-- `_Header(args)`: fetch a credential and print it as an HTTP header. -/
def _Header (env : Env) (args : Args) : HandlerResult :=
  match _FetchCredentials env args none none with
  | (.error e, evs) => ⟨.error e, [], evs⟩
  | (.ok credentials, evs) =>
    match _Format env "header" credentials with
    | .error e => ⟨.error e, [], evs⟩
    | .ok s => ⟨.ok none, [s], evs⟩

/-- `_Info(args)`: introspect the token; `return 1` when the result is
empty, else print it pretty or compact according to `args.format`. -/
def _Info (env : Env) (args : Args) : HandlerResult :=
  match _GetTokenInfo env args.access_token with
  | (.error e, evs) => ⟨.error e, [], evs⟩
  | (.ok tokeninfo, evs) =>
    if ¬ pybool tokeninfo then
      ⟨.ok (some 1), [], evs⟩
    else if args.format = "json" then
      ⟨.ok none, [env.prettyJson tokeninfo], evs⟩
    else
      ⟨.ok none, [env.compactJson tokeninfo], evs⟩

/-- Python `int(b)` for a bool. -/
def pyint (b : Bool) : Nat := if b then 1 else 0

/-- `_Test(args)`: `return 1 - (_TestToken(args.access_token))`. -/
def _Test (env : Env) (args : Args) : HandlerResult :=
  match _TestToken env args.access_token with
  | (.error e, evs) => ⟨.error e, [], evs⟩
  | (.ok valid, evs) => ⟨.ok (some (1 - pyint valid)), [], evs⟩

/-- The final outcome of one invocation: process exit status, stdout
lines, event trace. -/
structure CmdResult where
  exit_code : Nat
  stdout : List String
  events : List Event
deriving Repr, DecidableEq

/-- `str(e)` as printed by the top-level handler of `main`. -/
def errText : Err → String
  | .valueError m => m.render
  | .ioError p => "No such file or directory: " ++ p
  | .keyError k => k
  | .typeError => "string indices must be integers"
  | .httpError code => "HttpError accessing tokeninfo: response status " ++ toString code
  | .authError m => m

/-- The top level of `main` around one handler call: an uncaught exception
is printed as `Error encountered in <command> operation: <message>` and
turns into exit status 1; otherwise `sys.exit(main(...))` maps a `None`
return to exit status 0 and an int return to itself. -/
def mainOf (command : String) (r : HandlerResult) : CmdResult :=
  match r.ret with
  | .ok none => ⟨0, r.stdout, r.events⟩
  | .ok (some code) => ⟨code, r.stdout, r.events⟩
  | .error e =>
    ⟨1, r.stdout ++ ["Error encountered in " ++ command ++ " operation: " ++ errText e],
     r.events⟩

/-- One full run of `oauth2l fetch`. -/
def mainFetch (env : Env) (args : Args) : CmdResult :=
  mainOf "fetch" (_Fetch env args)

/-- One full run of `oauth2l header`. -/
def mainHeader (env : Env) (args : Args) : CmdResult :=
  mainOf "header" (_Header env args)

/-- One full run of `oauth2l info`. -/
def mainInfo (env : Env) (args : Args) : CmdResult :=
  mainOf "info" (_Info env args)

/-- One full run of `oauth2l test`. -/
def mainTest (env : Env) (args : Args) : CmdResult :=
  mainOf "test" (_Test env args)

/-- Prepending the fixed scope base yields a string starting with the URI
scheme. -/
theorem pyStartswith_scopePrefixUrl (s : String) :
    pyStartswith (scopePrefixUrl ++ s) "https://" = true := by
  unfold pyStartswith
  rw [List.isPrefixOf_iff_prefix, String.data_append]
  exact (show "https://".data <+: scopePrefixUrl.data by decide).trans
    (List.prefix_append _ _)

/-- C8: `_ExpandScopes` returns a list of the same length, in order: the
element at each position is the input element at that position, passed
through unchanged when it starts with `https://` and prefixed with the
fixed base otherwise.  (The function is a pure `List.map`; it performs no
side effects.) -/
theorem expandScopes_pointwise (scopes : List String) (i : Nat) :
    (_ExpandScopes scopes).length = scopes.length ∧
    (_ExpandScopes scopes)[i]? = (scopes[i]?).map
      (fun s => if pyStartswith s "https://" then s else scopePrefixUrl ++ s) := by
  constructor
  · simp [_ExpandScopes]
  · simp [_ExpandScopes]

/-- C9: scope expansion is idempotent, and every element of the expanded
list is fully qualified (starts with `https://`). -/
theorem expandScopes_idempotent (scopes : List String) :
    _ExpandScopes (_ExpandScopes scopes) = _ExpandScopes scopes ∧
    ∀ s ∈ _ExpandScopes scopes, pyStartswith s "https://" = true := by
  have hmem : ∀ s ∈ _ExpandScopes scopes, pyStartswith s "https://" = true := by
    intro s hs
    simp only [_ExpandScopes, List.mem_map] at hs
    obtain ⟨t, _, rfl⟩ := hs
    by_cases h : pyStartswith t "https://"
    · simp [h]
    · simp [h, pyStartswith_scopePrefixUrl]
  refine ⟨?_, hmem⟩
  show (_ExpandScopes scopes).map _ = _ExpandScopes scopes
  have h1 : ∀ s ∈ _ExpandScopes scopes,
      (if pyStartswith s "https://" then s else scopePrefixUrl ++ s) = id s := by
    intro s hs
    simp [hmem s hs]
  rw [List.map_congr_left h1, List.map_id]

/-- C2: `_GetTokenInfo` parses and returns the response body on HTTP
status 200, returns the empty `TokenInfo` on status 400, and raises the
transport-level `HttpError` on every other status. -/
theorem getTokenInfo_statusCases (env : Env) (access_token : String) :
    ((env.httpGet (tokeninfoUrl access_token)).status_code = 200 →
       _GetTokenInfo env access_token =
         (.ok (env.jsonLoads (env.httpGet (tokeninfoUrl access_token)).content),
          [Event.httpCall (tokeninfoUrl access_token)])) ∧
    ((env.httpGet (tokeninfoUrl access_token)).status_code = 400 →
       _GetTokenInfo env access_token =
         (.ok [], [Event.httpCall (tokeninfoUrl access_token)])) ∧
    ((env.httpGet (tokeninfoUrl access_token)).status_code ≠ 200 →
     (env.httpGet (tokeninfoUrl access_token)).status_code ≠ 400 →
       _GetTokenInfo env access_token =
         (.error (.httpError (env.httpGet (tokeninfoUrl access_token)).status_code),
          [Event.httpCall (tokeninfoUrl access_token)]) ∧
       (Err.httpError
         (env.httpGet (tokeninfoUrl access_token)).status_code).isTransportError
         = true) := by
  refine ⟨?_, ?_, ?_⟩
  · intro h
    unfold _GetTokenInfo
    simp [httpOK, httpBadRequest, h, _AsText]
  · intro h
    unfold _GetTokenInfo
    simp [httpOK, httpBadRequest, h]
  · intro h1 h2
    refine ⟨?_, rfl⟩
    unfold _GetTokenInfo
    simp [httpOK, httpBadRequest, h1, h2]

/-- Status witness for C2: on a 400 response the result is the empty
`TokenInfo`. -/
theorem getTokenInfo_statusCases_witness :
    _GetTokenInfo
        { httpGet := fun _ => ⟨400, "bad"⟩
          jsonLoads := fun _ => []
          parseJson := fun _ => none
          readFile := fun _ => none
          pathExists := fun _ => false
          expanduser := fun s => s
          defaultClientInfo := ⟨.str "id", .str "secret", "apitools/0.2 oauth2l/0.1"⟩
          getCredentials := fun _ _ _ _ => .error .typeError
          refresh := fun c => .ok c
          prettyJson := fun _ => "pretty"
          compactJson := fun _ => "compact"
          credTypeName := "oauth2client.client.OAuth2Credentials" } "tok" =
      (.ok [], [Event.httpCall (tokeninfoUrl "tok")]) :=
  (getTokenInfo_statusCases _ "tok").2.1 rfl

/-- A concrete collaborator environment used by the closed instantiations
below: the store returns a fixed credential whose token introspects as
valid (status 200, non-empty body). -/
def envValid : Env where
  httpGet := fun _ => ⟨200, "body"⟩
  jsonLoads := fun _ => [("scope", .str "https://www.googleapis.com/auth/bigquery")]
  parseJson := fun _ => some []
  readFile := fun _ => some "text"
  pathExists := fun _ => true
  expanduser := fun s => s
  defaultClientInfo := ⟨.str "id", .str "secret", "apitools/0.2 oauth2l/0.1"⟩
  getCredentials := fun _ _ _ _ => .ok ⟨"tok", "credjson"⟩
  refresh := fun _ => .ok ⟨"newtok", "credjson"⟩
  prettyJson := fun _ => "prettyrendering"
  compactJson := fun _ => "compactrendering"
  credTypeName := "oauth2client.client.OAuth2Credentials"

/-- Like `envValid`, but the introspection endpoint answers 400: every
token is reported invalid. -/
def envInvalid : Env :=
  { envValid with httpGet := fun _ => ⟨400, "bad"⟩ }

/-- A concrete argument namespace for a `fetch`-style invocation with one
short scope and no `--json` flag. -/
def argsFetch : Args where
  json := ""
  scope := ["bigquery"]
  credentials_filename := ""
  credentials_format := "pretty"
  format := "json"
  access_token := "tok"

/-- C1: whenever the steps of `_FetchCredentials` before validation
succeed (JSON argument processed, client info resolved, scopes non-empty,
credential obtained from the store), the access token of the obtained
credential is introspected, and: if the introspection result is non-empty
the credential is returned unchanged with no refresh call; if it is empty
the external refresh operation runs once and its result is returned as-is,
with no second introspection after the refresh.  The event traces on the
right-hand sides record this exactly. -/
theorem fetchCredentials_revalidates (env : Env) (args : Args)
    (clientInfoArg : Option ClientInfo) (fnameArg : Option String)
    (cs sak : String) (evs1 : List Event)
    (hpj : _ProcessJsonArgs env args.json = (.ok (cs, sak), evs1))
    (ci : ClientInfo) (evs2 : List Event)
    (hci : resolveClientInfo env clientInfoArg cs = (.ok ci, evs2))
    (hs : _ExpandScopes args.scope ≠ [])
    (creds : Credential)
    (hget : env.getCredentials (_ExpandScopes args.scope)
              (pyOrOpt fnameArg args.credentials_filename) sak ci = .ok creds)
    (info : TokenInfo) (evs4 : List Event)
    (hti : _GetTokenInfo env creds.access_token = (.ok info, evs4)) :
    (pybool info = true →
       _FetchCredentials env args clientInfoArg fnameArg =
         (.ok creds,
          evs1 ++ evs2 ++
            [Event.getCreds (_ExpandScopes args.scope)
               (pyOrOpt fnameArg args.credentials_filename) sak] ++ evs4)) ∧
    (pybool info = false →
       _FetchCredentials env args clientInfoArg fnameArg =
         (env.refresh creds,
          evs1 ++ evs2 ++
            [Event.getCreds (_ExpandScopes args.scope)
               (pyOrOpt fnameArg args.credentials_filename) sak] ++ evs4 ++
            [Event.refreshCall creds.access_token])) := by
  unfold _FetchCredentials
  rw [hpj]
  dsimp only
  rw [hci]
  dsimp only
  simp only [if_neg hs]
  rw [hget]
  dsimp only
  unfold _TestToken
  rw [hti]
  dsimp only
  constructor
  · intro hv
    simp [hv]
  · intro hv
    cases hr : env.refresh creds <;> simp [hv, hr]

/-- Closed instantiation of C1, valid-token side: with `envValid` the
cached credential is returned unchanged and the trace shows one store call
followed by one introspection call and no refresh. -/
theorem fetchCredentials_revalidates_witness :
    _FetchCredentials envValid argsFetch none none =
      (.ok ⟨"tok", "credjson"⟩,
       [Event.getCreds ["https://www.googleapis.com/auth/bigquery"] "" "",
        Event.httpCall (tokeninfoUrl "tok")]) := by
  have h :=
    (fetchCredentials_revalidates envValid argsFetch none none "" "" [] rfl
      envValid.defaultClientInfo [] rfl (by decide) ⟨"tok", "credjson"⟩ rfl
      [("scope", .str "https://www.googleapis.com/auth/bigquery")]
      [Event.httpCall (tokeninfoUrl "tok")] rfl).1 rfl
  simpa using h

/-- C4: `_Format` renders `header` as exactly `Authorization: Bearer `
followed by the access token, renders `bare` as the raw access token, and
raises the configuration-level `ValueError` for every format kind outside
the `_FORMATS` enumeration. -/
theorem format_kinds (env : Env) (credentials : Credential) :
    _Format env "header" credentials =
      .ok ("Authorization: Bearer " ++ credentials.access_token) ∧
    _Format env "bare" credentials = .ok credentials.access_token ∧
    ∀ fmt, fmt ∉ _FORMATS →
      _Format env fmt credentials = .error (.valueError (.unknownFormat fmt)) ∧
      (Err.valueError (.unknownFormat fmt)).isConfigurationError = true := by
  refine ⟨rfl, rfl, ?_⟩
  intro fmt h
  simp only [_FORMATS, List.mem_cons, List.not_mem_nil, or_false, not_or] at h
  obtain ⟨h1, h2, h3, h4, h5⟩ := h
  exact ⟨by simp [_Format, h1, h2, h3, h4, h5], rfl⟩

/-- Closed instantiation of C4 at the unknown format kind `xml`. -/
theorem format_kinds_witness :
    _Format envValid "xml" ⟨"tok", "credjson"⟩ =
      .error (.valueError (.unknownFormat "xml")) :=
  ((format_kinds envValid ⟨"tok", "credjson"⟩).2.2 "xml" (by decide)).1

/-- C5: when introspection of the token argument succeeds, the `test`
command exits 0 exactly when the result is non-empty and 1 when it is
empty, printing nothing in either case; and `_TestToken` reports the token
valid exactly when the introspection result is non-empty. -/
theorem test_exitCode (env : Env) (args : Args) (info : TokenInfo)
    (evs : List Event)
    (hti : _GetTokenInfo env args.access_token = (.ok info, evs)) :
    (info = [] → mainTest env args = ⟨1, [], evs⟩) ∧
    (info ≠ [] → mainTest env args = ⟨0, [], evs⟩) ∧
    ((_TestToken env args.access_token).1 = .ok true ↔ info ≠ []) := by
  refine ⟨?_, ?_, ?_⟩
  · intro he
    subst he
    unfold mainTest mainOf _Test _TestToken
    rw [hti]
    simp [pybool, pyint]
  · intro hne
    unfold mainTest mainOf _Test _TestToken
    rw [hti]
    cases info with
    | nil => exact absurd rfl hne
    | cons a l => simp [pybool, pyint]
  · unfold _TestToken
    rw [hti]
    cases info <;> simp [pybool]

/-- Closed instantiation of C5: a token introspecting to an empty mapping
makes `test` exit 1 with no output. -/
theorem test_exitCode_witness :
    mainTest envInvalid argsFetch =
      ⟨1, [], [Event.httpCall (tokeninfoUrl "tok")]⟩ :=
  (test_exitCode envInvalid argsFetch [] [Event.httpCall (tokeninfoUrl "tok")] rfl).1 rfl

/-- C6: when introspection of the token argument succeeds, the `info`
command prints nothing and exits 1 on an empty result, and otherwise
prints the result rendered by `_PrettyJson` when the requested format is
`json` and by `_CompactJson` when it is `json_compact`, exiting 0. -/
theorem info_exitCode (env : Env) (args : Args) (info : TokenInfo)
    (evs : List Event)
    (hti : _GetTokenInfo env args.access_token = (.ok info, evs)) :
    (info = [] → mainInfo env args = ⟨1, [], evs⟩) ∧
    (info ≠ [] → args.format = "json" →
       mainInfo env args = ⟨0, [env.prettyJson info], evs⟩) ∧
    (info ≠ [] → args.format = "json_compact" →
       mainInfo env args = ⟨0, [env.compactJson info], evs⟩) := by
  refine ⟨?_, ?_, ?_⟩
  · intro he
    subst he
    unfold mainInfo mainOf _Info
    rw [hti]
    simp [pybool]
  · intro hne hf
    unfold mainInfo mainOf _Info
    rw [hti]
    cases info with
    | nil => exact absurd rfl hne
    | cons a l => simp [pybool, hf]
  · intro hne hf
    unfold mainInfo mainOf _Info
    rw [hti]
    cases info with
    | nil => exact absurd rfl hne
    | cons a l => simp [pybool, hf]

/-- Closed instantiation of C6: a non-empty introspection result is
printed in the pretty `json` rendering with exit status 0. -/
theorem info_exitCode_witness :
    mainInfo envValid argsFetch =
      ⟨0, ["prettyrendering"], [Event.httpCall (tokeninfoUrl "tok")]⟩ :=
  ((info_exitCode envValid argsFetch
      [("scope", .str "https://www.googleapis.com/auth/bigquery")]
      [Event.httpCall (tokeninfoUrl "tok")] rfl).2.1 (by simp) rfl)

/-- An event that stays on the local machine: only file opens. -/
def Event.isLocal : Event → Bool
  | .fileOpen _ => true
  | .httpCall _ => false
  | .getCreds _ _ _ => false
  | .refreshCall _ => false

/-- `true` exactly when a computation failed with a configuration-class
error. -/
def failedWithConfigError {α : Type} : Except Err α → Bool
  | .error e => e.isConfigurationError
  | .ok _ => false

/-- Every event `_ProcessJsonArgs` records is local (a file open). -/
theorem processJsonArgs_local (env : Env) (j : String) :
    (_ProcessJsonArgs env j).2.all Event.isLocal = true := by
  unfold _ProcessJsonArgs
  repeat' split
  all_goals simp [Event.isLocal]

/-- Every error `_ProcessJsonArgs` raises is a configuration error, and is
never the empty-scope `ValueError`. -/
theorem processJsonArgs_error_props (env : Env) (j : String) (e : Err)
    (h : (_ProcessJsonArgs env j).1 = .error e) :
    e.isConfigurationError = true ∧ e ≠ .valueError .noScopes := by
  unfold _ProcessJsonArgs at h
  repeat' split at h
  all_goals try exact Except.noConfusion h
  all_goals injection h with h2
  all_goals subst h2
  all_goals simp [Err.isConfigurationError]

/-- Every event `GetClientInfoFromFlags` records is local (a file open). -/
theorem getClientInfoFromFlags_local (env : Env) (cs : String) :
    (GetClientInfoFromFlags env cs).2.all Event.isLocal = true := by
  unfold GetClientInfoFromFlags
  dsimp only
  repeat' split
  all_goals simp [Event.isLocal]

/-- Every error `jIndex` raises (`KeyError`/`TypeError`) is a
configuration error and is never the empty-scope `ValueError`. -/
theorem jIndex_error_props (v : JVal) (k : String) (e : Err)
    (h : jIndex v k = .error e) :
    e.isConfigurationError = true ∧ e ≠ .valueError .noScopes := by
  unfold jIndex at h
  repeat' split at h
  all_goals try exact Except.noConfusion h
  all_goals injection h with h2
  all_goals subst h2
  all_goals simp [Err.isConfigurationError]

/-- Every error `GetClientInfoFromFlags` raises is a configuration error,
and is never the empty-scope `ValueError`. -/
theorem getClientInfoFromFlags_error_props (env : Env) (cs : String) (e : Err)
    (h : (GetClientInfoFromFlags env cs).1 = .error e) :
    e.isConfigurationError = true ∧ e ≠ .valueError .noScopes := by
  unfold GetClientInfoFromFlags at h
  dsimp only at h
  repeat' split at h
  all_goals try exact Except.noConfusion h
  all_goals try (injection h with h2; subst h2; simp [Err.isConfigurationError])
  all_goals exact jIndex_error_props _ _ _ (by assumption)

/-- Every event `resolveClientInfo` records is local. -/
theorem resolveClientInfo_local (env : Env) (clientInfoArg : Option ClientInfo)
    (cs : String) :
    (resolveClientInfo env clientInfoArg cs).2.all Event.isLocal = true := by
  cases clientInfoArg with
  | some ci => rfl
  | none => exact getClientInfoFromFlags_local env cs

/-- Every error `resolveClientInfo` raises is a configuration error, and
is never the empty-scope `ValueError`. -/
theorem resolveClientInfo_error_props (env : Env)
    (clientInfoArg : Option ClientInfo) (cs : String) (e : Err)
    (h : (resolveClientInfo env clientInfoArg cs).1 = .error e) :
    e.isConfigurationError = true ∧ e ≠ .valueError .noScopes := by
  cases clientInfoArg with
  | some ci => simp [resolveClientInfo] at h
  | none => exact getClientInfoFromFlags_error_props env cs e h

/-- With an empty scope list, `_FetchCredentials` fails with a
configuration error and its trace holds only local events. -/
theorem fetchCredentials_emptyScope_aux (env : Env) (args : Args)
    (clientInfoArg : Option ClientInfo) (fnameArg : Option String)
    (hscope : args.scope = []) :
    failedWithConfigError (_FetchCredentials env args clientInfoArg fnameArg).1
      = true ∧
    (_FetchCredentials env args clientInfoArg fnameArg).2.all Event.isLocal
      = true := by
  have hsc : _ExpandScopes args.scope = [] := by
    rw [hscope]
    rfl
  cases hpj : _ProcessJsonArgs env args.json with
  | mk r1 evs1 =>
    have hl1 : evs1.all Event.isLocal = true := by
      have := processJsonArgs_local env args.json
      rw [hpj] at this
      exact this
    cases r1 with
    | error e =>
      have hp := processJsonArgs_error_props env args.json e (by rw [hpj])
      have hfc : _FetchCredentials env args clientInfoArg fnameArg =
          (.error e, evs1) := by
        unfold _FetchCredentials
        rw [hpj]
      rw [hfc]
      exact ⟨by simp [failedWithConfigError, hp.1], hl1⟩
    | ok pr =>
      rcases pr with ⟨cs, sak⟩
      cases hci : resolveClientInfo env clientInfoArg cs with
      | mk r2 evs2 =>
        have hl2 : evs2.all Event.isLocal = true := by
          have := resolveClientInfo_local env clientInfoArg cs
          rw [hci] at this
          exact this
        cases r2 with
        | error e =>
          have hp := resolveClientInfo_error_props env clientInfoArg cs e
            (by rw [hci])
          have hfc : _FetchCredentials env args clientInfoArg fnameArg =
              (.error e, evs1 ++ evs2) := by
            unfold _FetchCredentials
            rw [hpj]
            dsimp only
            rw [hci]
          rw [hfc]
          refine ⟨by simp [failedWithConfigError, hp.1], ?_⟩
          simp only [List.all_append, hl1, hl2]
          rfl
        | ok ci =>
          have hfc : _FetchCredentials env args clientInfoArg fnameArg =
              (.error (.valueError .noScopes), evs1 ++ evs2) := by
            unfold _FetchCredentials
            rw [hpj]
            dsimp only
            rw [hci]
            dsimp only
            simp [hsc]
          rw [hfc]
          refine ⟨rfl, ?_⟩
          simp only [List.all_append, hl1, hl2]
          rfl

/-- A `fetch`/`header` invocation with zero scope arguments. -/
def argsNoScope : Args where
  json := ""
  scope := []
  credentials_filename := ""
  credentials_format := "pretty"
  format := "json"
  access_token := "tok"

/-- C3: a `fetch` or `header` invocation with zero scope arguments fails
with a configuration error, and its event trace holds only local events —
neither the credential store nor the introspection endpoint is contacted. -/
theorem emptyScope_rejected (env : Env) (args : Args)
    (hscope : args.scope = []) :
    failedWithConfigError (_Fetch env args).ret = true ∧
    failedWithConfigError (_Header env args).ret = true ∧
    (_Fetch env args).events.all Event.isLocal = true ∧
    (_Header env args).events.all Event.isLocal = true := by
  have haux := fetchCredentials_emptyScope_aux env args none none hscope
  cases hfc : _FetchCredentials env args none none with
  | mk r evs =>
    rw [hfc] at haux
    cases r with
    | error e =>
      have hf : _Fetch env args = ⟨.error e, [], evs⟩ := by
        unfold _Fetch
        rw [hfc]
      have hh : _Header env args = ⟨.error e, [], evs⟩ := by
        unfold _Header
        rw [hfc]
      rw [hf, hh]
      exact ⟨haux.1, haux.1, haux.2, haux.2⟩
    | ok c =>
      exact absurd haux.1 (by simp [failedWithConfigError])

/-- Closed instantiation of C3: zero scopes with no `--json` flag. -/
theorem emptyScope_rejected_witness :
    failedWithConfigError (_Fetch envValid argsNoScope).ret = true ∧
    failedWithConfigError (_Header envValid argsNoScope).ret = true ∧
    (_Fetch envValid argsNoScope).events.all Event.isLocal = true ∧
    (_Header envValid argsNoScope).events.all Event.isLocal = true :=
  emptyScope_rejected envValid argsNoScope rfl

/-- C7: when the supplied JSON key file is missing (`open` fails) or
malformed (`json.load` fails), `_FetchCredentials` fails with a
configuration error. -/
theorem badKeyfile_configError (env : Env) (args : Args)
    (clientInfoArg : Option ClientInfo) (fnameArg : Option String)
    (hjson : args.json ≠ "")
    (hbad : env.readFile args.json = none ∨
            ∃ raw, env.readFile args.json = some raw ∧ env.parseJson raw = none) :
    failedWithConfigError (_FetchCredentials env args clientInfoArg fnameArg).1
      = true := by
  have hpj : ∃ e, (_ProcessJsonArgs env args.json) =
      (.error e, [Event.fileOpen args.json]) ∧ e.isConfigurationError = true := by
    rcases hbad with hb | ⟨raw, hr, hp⟩
    · refine ⟨.ioError args.json, ?_, rfl⟩
      unfold _ProcessJsonArgs
      rw [if_neg hjson, hb]
    · refine ⟨.valueError (.invalidJsonFile args.json), ?_, rfl⟩
      unfold _ProcessJsonArgs
      rw [if_neg hjson, hr]
      dsimp only
      rw [hp]
  obtain ⟨e, hpj, hcfg⟩ := hpj
  have hfc : _FetchCredentials env args clientInfoArg fnameArg =
      (.error e, [Event.fileOpen args.json]) := by
    unfold _FetchCredentials
    rw [hpj]
  rw [hfc]
  exact hcfg

/-- An invocation passing `--json key.json` with one scope. -/
def argsKeyfile : Args where
  json := "key.json"
  scope := ["bigquery"]
  credentials_filename := ""
  credentials_format := "pretty"
  format := "json"
  access_token := "tok"

/-- Like `envValid`, but every file open fails (missing file). -/
def envNoFile : Env :=
  { envValid with readFile := fun _ => none }

/-- Closed instantiation of C7: a missing `key.json` makes acquisition
fail with a configuration error. -/
theorem badKeyfile_configError_witness :
    failedWithConfigError (_FetchCredentials envNoFile argsKeyfile none none).1
      = true :=
  badKeyfile_configError envNoFile argsKeyfile none none (by decide)
    (Or.inl rfl)

/-- C10: in `_FetchCredentials` the JSON-file argument is processed and
the client info resolved before the empty-scope check: a failure of
`_ProcessJsonArgs` is returned verbatim (so with an empty scope list and a
missing/malformed JSON file the JSON-file error wins), a failure of
client-info resolution is returned next, and the `No scopes provided`
error can only be observed once both earlier stages have succeeded. -/
theorem jsonProcessedBeforeScopeCheck (env : Env) (args : Args)
    (clientInfoArg : Option ClientInfo) (fnameArg : Option String) :
    (∀ e evs, _ProcessJsonArgs env args.json = (.error e, evs) →
       _FetchCredentials env args clientInfoArg fnameArg = (.error e, evs)) ∧
    (∀ cs sak evs1 e evs2,
       _ProcessJsonArgs env args.json = (.ok (cs, sak), evs1) →
       resolveClientInfo env clientInfoArg cs = (.error e, evs2) →
       _FetchCredentials env args clientInfoArg fnameArg =
         (.error e, evs1 ++ evs2)) ∧
    (∀ evs,
       _FetchCredentials env args clientInfoArg fnameArg =
         (.error (.valueError .noScopes), evs) →
       ∃ cs sak evs1 ci evs2,
         _ProcessJsonArgs env args.json = (.ok (cs, sak), evs1) ∧
         resolveClientInfo env clientInfoArg cs = (.ok ci, evs2)) := by
  refine ⟨?_, ?_, ?_⟩
  · intro e evs hpj
    unfold _FetchCredentials
    rw [hpj]
  · intro cs sak evs1 e evs2 hpj hci
    unfold _FetchCredentials
    rw [hpj]
    dsimp only
    rw [hci]
  · intro evs hfc
    cases hpj : _ProcessJsonArgs env args.json with
    | mk r1 evs1 =>
      cases r1 with
      | error e =>
        have hred : _FetchCredentials env args clientInfoArg fnameArg =
            (.error e, evs1) := by
          unfold _FetchCredentials
          rw [hpj]
        rw [hred] at hfc
        have he : e = .valueError .noScopes := by
          have := congrArg Prod.fst hfc
          exact Except.error.inj this
        exact absurd he (processJsonArgs_error_props env args.json e
          (by rw [hpj])).2
      | ok pr =>
        rcases pr with ⟨cs, sak⟩
        cases hci : resolveClientInfo env clientInfoArg cs with
        | mk r2 evs2 =>
          cases r2 with
          | error e =>
            have hred : _FetchCredentials env args clientInfoArg fnameArg =
                (.error e, evs1 ++ evs2) := by
              unfold _FetchCredentials
              rw [hpj]
              dsimp only
              rw [hci]
            rw [hred] at hfc
            have he : e = .valueError .noScopes := by
              have := congrArg Prod.fst hfc
              exact Except.error.inj this
            exact absurd he (resolveClientInfo_error_props env clientInfoArg
              cs e (by rw [hci])).2
          | ok ci =>
            exact ⟨cs, sak, evs1, ci, evs2, rfl, hci⟩

/-- Closed instantiation of C10: with an empty scope list and a missing
`key.json`, the error returned is the file error, not the scope error. -/
theorem jsonProcessedBeforeScopeCheck_witness :
    _FetchCredentials envNoFile
        { argsKeyfile with scope := [] } none none =
      (.error (.ioError "key.json"), [Event.fileOpen "key.json"]) :=
  (jsonProcessedBeforeScopeCheck envNoFile { argsKeyfile with scope := [] }
      none none).1 (.ioError "key.json") [Event.fileOpen "key.json"] rfl
